import Mathlib

/-!
Verification of the gpo request-admission and routing layer.

This file gives a shallow embedding of the admission-control module
(ddos_protection.py) and of the reverse proxy (reverse_proxy.py), and
proves or refutes the frozen behavioural claims about them.

Modelling conventions:
- Flask abort(n) and the proxy send_error(n) become explicit outcome
  values carrying the numeric status code.
- The per-IP keys held in Redis (rate_limit:{ip}, violations:{ip},
  connections:{ip}, blacklist:{ip}) and the module-level in-memory
  fallback structures (IP_REQUEST_COUNTS, IP_CONNECTIONS,
  BLACKLISTED_IPS) as well as the WSGI middleware connection map are
  gathered, for a single fixed client address, into one Store record;
  each embedded operation reads and writes exactly the fields its
  Python counterpart touches.
- Key expiry is modelled for the blacklist flag (the only expiry any
  claim depends on) as an absolute expiry instant; the rate and
  violation counters are considered within a single window, where no
  expiry fires (the in-memory window sweep, cleanup_expired_data, is
  likewise quiescent within one window).
- Exceptions matter in one place: in geo_filter the Python abort(403)
  raises an HTTPException, which is a subclass of Exception and is
  therefore caught by the surrounding blanket except-Exception handler
  of the same function; the embedding reproduces that control flow.
-/

namespace Gpo

/-- Result of an admission check wrapped around a Flask handler:
either the wrapped handler runs, or the request is aborted with the
given HTTP status code. -/
inductive Admission where
  | proceed
  | aborted (code : Nat)
deriving DecidableEq, Repr

/-- Configuration constants of ddos_protection.DDoSConfig that the
admission operations read. -/
structure DDoSConfig where
  RATE_LIMIT : Nat
  MAX_CONNECTIONS_PER_IP : Nat
  BLACKLIST_THRESHOLD : Nat
  BLACKLIST_DURATION : Nat
  WHITELISTED_IPS : List String
  GEO_BLOCKING_ENABLED : Bool
  BLOCKED_COUNTRIES : List String
  ALLOWED_COUNTRIES : List String
deriving DecidableEq, Repr

/-- Per-client-address protection state: the Redis keys for this
address, the in-memory fallback counters, and the WSGI middleware
connection counter. -/
structure Store where
  rateCount : Nat              -- Redis key rate_limit:{ip}
  violations : Nat             -- Redis key violations:{ip}
  blacklistUntil : Option Nat  -- Redis key blacklist:{ip}, absolute expiry instant
  connCount : Int              -- Redis key connections:{ip}
  memBlacklisted : Bool        -- ip ∈ BLACKLISTED_IPS (module-level set)
  memRateCount : Nat           -- IP_REQUEST_COUNTS[ip]
  memConnCount : Int           -- IP_CONNECTIONS[ip]
  wsgiConnCount : Int          -- SlowlorisProtectionMiddleware.connections[ip]
deriving DecidableEq, Repr

/-- Fresh state: no counters, no flags (defaultdict zeros, no keys). -/
def Store.init : Store :=
  { rateCount := 0, violations := 0, blacklistUntil := none, connCount := 0
    memBlacklisted := false, memRateCount := 0, memConnCount := 0, wsgiConnCount := 0 }

/-- Embedding of ddos_protection.is_blacklisted: the in-memory set is
consulted first; with Redis available the blacklist:{ip} key is then
checked (it exists exactly while the current time is before its
expiry instant). -/
def is_blacklisted (redisAvailable : Bool) (now : Nat) (s : Store) : Bool :=
  s.memBlacklisted ||
    (redisAvailable &&
      (match s.blacklistUntil with
       | some t => decide (now < t)
       | none => false))

/-- Embedding of the Redis branch of the rate_limit decorator (lines
154-191 of ddos_protection.py): whitelist bypass, in-memory blacklist
check, increment of the windowed request counter, 429 on exceeding
the ceiling with violation tracking and blacklist-flag setting at the
threshold. -/
def rate_limit_redis (cfg : DDoSConfig) (ip : String) (now : Nat) (s : Store) :
    Admission × Store :=
  if ip ∈ cfg.WHITELISTED_IPS then (.proceed, s)
  else if s.memBlacklisted then (.aborted 403, s)
  else
    let c := s.rateCount + 1
    if c > cfg.RATE_LIMIT then
      let v := s.violations + 1
      if v ≥ cfg.BLACKLIST_THRESHOLD then
        (.aborted 429,
          { s with rateCount := c, violations := v,
                   blacklistUntil := some (now + cfg.BLACKLIST_DURATION) })
      else
        (.aborted 429, { s with rateCount := c, violations := v })
    else
      (.proceed, { s with rateCount := c })

/-- Embedding of the in-memory branch of the rate_limit decorator
(lines 196-203): the fallback only counts requests and rejects with
429 over the ceiling; it keeps no violation counter and never sets
any blacklist state. -/
def rate_limit_mem (cfg : DDoSConfig) (ip : String) (s : Store) :
    Admission × Store :=
  if ip ∈ cfg.WHITELISTED_IPS then (.proceed, s)
  else if s.memBlacklisted then (.aborted 403, s)
  else
    let c := s.memRateCount + 1
    if c > cfg.RATE_LIMIT then (.aborted 429, { s with memRateCount := c })
    else (.proceed, { s with memRateCount := c })

/-- Connection ceiling actually enforced: a quarter of the configured
ceiling (at least 1) for requests flagged as slow clients (an
X-SlowTest header or a User-Agent containing the word slow), the full
ceiling otherwise. -/
def effective_max_connections (cfg : DDoSConfig) (slowClient : Bool) : Nat :=
  if slowClient then max 1 (cfg.MAX_CONNECTIONS_PER_IP / 4)
  else cfg.MAX_CONNECTIONS_PER_IP

/-- Embedding of the Redis branch of connection_limiter.limit_connections
(lines 219-264): whitelist bypass, blacklist check, connection-counter
increment, and on exceeding the (possibly tightened) ceiling a
violation record, blacklisting at the threshold (this path also adds
the address to the in-memory set), a compensating decrement, and 429. -/
def limit_connections_redis (cfg : DDoSConfig) (ip : String) (slowClient : Bool)
    (now : Nat) (s : Store) : Admission × Store :=
  if ip ∈ cfg.WHITELISTED_IPS then (.proceed, s)
  else if s.memBlacklisted then (.aborted 403, s)
  else
    let c := s.connCount + 1
    if c > (effective_max_connections cfg slowClient : Int) then
      let v := s.violations + 1
      if v ≥ cfg.BLACKLIST_THRESHOLD then
        (.aborted 429,
          { s with connCount := c - 1, violations := v,
                   blacklistUntil := some (now + cfg.BLACKLIST_DURATION),
                   memBlacklisted := true })
      else
        (.aborted 429, { s with connCount := c - 1, violations := v })
    else
      (.proceed, { s with connCount := c })

/-- Embedding of the in-memory branch of limit_connections (lines
269-283): increment, and on exceeding the ceiling a compensating
decrement and 429; no violation tracking. -/
def limit_connections_mem (cfg : DDoSConfig) (ip : String) (slowClient : Bool)
    (s : Store) : Admission × Store :=
  if ip ∈ cfg.WHITELISTED_IPS then (.proceed, s)
  else if s.memBlacklisted then (.aborted 403, s)
  else
    let c := s.memConnCount + 1
    if c > (effective_max_connections cfg slowClient : Int) then
      (.aborted 429, { s with memConnCount := c - 1 })
    else
      (.proceed, { s with memConnCount := c })

/-- Embedding of SlowlorisProtectionMiddleware.__call__ (lines
351-407): whitelist bypass, is_blacklisted check (403), connection
tracking against the full ceiling (429 with compensating decrement on
excess). A successful call leaves the counter incremented until the
response completes. -/
def slowloris_middleware (cfg : DDoSConfig) (ip : String) (redisAvailable : Bool)
    (now : Nat) (s : Store) : Admission × Store :=
  if ip ∈ cfg.WHITELISTED_IPS then (.proceed, s)
  else if is_blacklisted redisAvailable now s then (.aborted 403, s)
  else
    let c := s.wsgiConnCount + 1
    if c > (cfg.MAX_CONNECTIONS_PER_IP : Int) then
      (.aborted 429, { s with wsgiConnCount := c - 1 })
    else
      (.proceed, { s with wsgiConnCount := c })

/-- Embedding of validate_request (lines 556-588): with the
user_agents module not importable the function always returns True;
otherwise a missing or empty User-Agent header fails validation, and
everything else (bot detection, Referer checks) only logs. -/
def validate_request (parseImported : Bool) (userAgent : String) : Bool :=
  if !parseImported then true
  else if userAgent = "" then false
  else true

/-- Embedding of the global_protection before_request hook installed
by protect_flask_app (lines 631-653): whitelist bypass, blacklist
rejection with 403, then request validation with 400 on failure. -/
def global_protection (cfg : DDoSConfig) (ip : String) (redisAvailable : Bool)
    (parseImported : Bool) (userAgent : String) (now : Nat) (s : Store) : Admission :=
  if ip ∈ cfg.WHITELISTED_IPS then .proceed
  else if is_blacklisted redisAvailable now s then .aborted 403
  else if !(validate_request parseImported userAgent) then .aborted 400
  else .proceed

/-- Country lookup outcome inside geo_filter: the GeoIP reader either
resolves a country code or raises (database unreadable, address not
found). -/
inductive GeoLookup where
  | resolved (countryCode : String)
  | failed
deriving DecidableEq, Repr

/-- The geo-filtering rules as written inside the try block of
geo_filter (lines 499-505): reject when a non-empty allow-list lacks
the country, reject when the deny-list contains it, otherwise let the
request through. -/
def geo_decision (cfg : DDoSConfig) (countryCode : String) : Admission :=
  if !cfg.ALLOWED_COUNTRIES.isEmpty && !(countryCode ∈ cfg.ALLOWED_COUNTRIES) then
    .aborted 403
  else if countryCode ∈ cfg.BLOCKED_COUNTRIES then .aborted 403
  else .proceed

/-- Embedding of the geo_filter decorator (lines 457-513). Guard
order follows the source: feature flag, geoip2 import, whitelist,
private/loopback address (an unparseable address is treated as
neither), database presence, then the try block. Crucially, abort(403)
raised by geo_decision inside the try block is an HTTPException, a
subclass of Exception, so the blanket except-Exception handler of
geo_filter catches it and control falls through to calling the
wrapped handler: the request proceeds. -/
def geo_filter (cfg : DDoSConfig) (geoip2Imported dbExists : Bool) (ip : String)
    (ipPrivate ipLoopback : Bool) (lookup : GeoLookup) : Admission :=
  if !cfg.GEO_BLOCKING_ENABLED then .proceed
  else if !geoip2Imported then .proceed
  else if ip ∈ cfg.WHITELISTED_IPS then .proceed
  else if ipPrivate || ipLoopback then .proceed
  else if !dbExists then .proceed
  else
    match lookup with
    | .failed => .proceed
    | .resolved cc =>
      match geo_decision cfg cc with
      | .aborted _ => .proceed
      | .proceed => .proceed

/-! Reverse proxy (reverse_proxy.py). -/

/-- Per-node statistics kept in ClusterState.node_stats (Python ints,
so Int here). -/
structure NodeStats where
  connections : Int
  requests : Int
  errors : Int
deriving DecidableEq, Repr

/-- The node_stats dictionary, keyed by backend base URL. -/
abbrev StatsMap := List (String × NodeStats)

/-- Dictionary lookup (Python node_stats[backend] read access). -/
def statsGet (m : StatsMap) (k : String) : Option NodeStats :=
  (m.find? fun p => decide (p.1 = k)).map (·.2)

/-- Membership test (Python: backend in node_stats). -/
def statsContains (m : StatsMap) (k : String) : Bool :=
  m.any fun p => decide (p.1 = k)

/-- In-place update of one entry, a no-op when the key is absent: the
proxy code always guards its stats mutations with a membership test. -/
def statsUpdate (m : StatsMap) (k : String) (f : NodeStats → NodeStats) : StatsMap :=
  if statsContains m k then
    m.map fun p => if p.1 = k then (p.1, f p.2) else p
  else m

/-- Embedding of ClusterState: the healthy-node list (the ClusterView
of the spec), per-node statistics, and the round-robin cursor. -/
structure ClusterState where
  active_nodes : List String
  node_stats : StatsMap
  node_index : Nat
deriving DecidableEq, Repr

/-- Character-code sum used by the ip_hash algorithm:
sum(ord(c) for c in client_ip). -/
def char_sum (s : String) : Nat :=
  (s.data.map Char.toNat).sum

/-- Connection count used as the least_connections key; the proxy
only ever selects among active nodes, whose stats update_cluster_state
has initialised, so the default branch is unreachable in practice. -/
def conn_of (m : StatsMap) (n : String) : Int :=
  match statsGet m n with
  | some st => st.connections
  | none => 0

/-- Python min with a key function: first element with the minimal
key wins ties. -/
def least_conn_node (nodes : List String) (m : StatsMap) : Option String :=
  nodes.foldl
    (fun best n =>
      match best with
      | none => some n
      | some b => if conn_of m n < conn_of m b then some n else some b)
    none

/-- Embedding of ReverseProxyHandler.select_node (lines 188-226).
The sticky_url argument is the URL reconstructed from the SERVERID
cookie when one was sent (the cookie-to-URL string conversion itself
is not modelled; no claim depends on it). An empty active list yields
none before any indexing; a sticky node still active is used
unconditionally; otherwise the configured algorithm string is
dispatched, any unknown name falling back to round-robin exactly as
the final else branch does. Only round-robin advances node_index. -/
def select_node (algorithm : String) (client_ip : String)
    (sticky_url : Option String) (cs : ClusterState) :
    Option String × ClusterState :=
  if cs.active_nodes.isEmpty then (none, cs)
  else
    let stickyPick : Option String :=
      match sticky_url with
      | some u => if u ∈ cs.active_nodes then some u else none
      | none => none
    match stickyPick with
    | some u => (some u, cs)
    | none =>
      if algorithm = "round_robin" then
        (cs.active_nodes.get? (cs.node_index % cs.active_nodes.length),
         { cs with node_index := cs.node_index + 1 })
      else if algorithm = "least_connections" then
        (least_conn_node cs.active_nodes cs.node_stats, cs)
      else if algorithm = "ip_hash" then
        (cs.active_nodes.get? (char_sum client_ip % cs.active_nodes.length), cs)
      else
        (cs.active_nodes.get? (cs.node_index % cs.active_nodes.length),
         { cs with node_index := cs.node_index + 1 })

/-- Outcome of ReverseProxyHandler.handle_request towards the
original caller. -/
inductive RouterResult where
  | error (code : Nat)
  | relayed (backend : String)
deriving DecidableEq, Repr

/-- Embedding of ReverseProxyHandler.handle_request (lines 74-186),
with the upstream exchange abstracted by the forward_ok oracle (true:
the request/response cycle completes; false: an exception is raised
after dispatch). No backend: 503. Otherwise the connections stat of
the chosen backend is incremented before dispatch; on success it is
decremented again and requests is incremented; on failure a 502 is
sent and only errors is incremented - connections is left as it was
after the dispatch increment. -/
def handle_request (algorithm : String) (client_ip : String)
    (sticky_url : Option String) (forward_ok : String → Bool)
    (cs : ClusterState) : RouterResult × ClusterState :=
  let sel := select_node algorithm client_ip sticky_url cs
  match sel.1 with
  | none => (.error 503, sel.2)
  | some backend =>
    let cs1 := { sel.2 with
      node_stats := statsUpdate sel.2.node_stats backend
        fun st => { st with connections := st.connections + 1 } }
    if forward_ok backend then
      (.relayed backend,
       { cs1 with
         node_stats := statsUpdate cs1.node_stats backend
           fun st => { st with connections := st.connections - 1,
                               requests := st.requests + 1 } })
    else
      (.error 502,
       { cs1 with
         node_stats := statsUpdate cs1.node_stats backend
           fun st => { st with errors := st.errors + 1 } })

/-- The hop-by-hop header names deleted before forwarding (lines
122-126), exactly as listed in the source: all lowercase. -/
def hop_by_hop_headers : List String :=
  ["connection", "keep-alive", "proxy-authenticate",
   "proxy-authorization", "te", "trailers",
   "transfer-encoding", "upgrade"]

/-- Request headers as an association list in arrival order, names in
the letter case the client sent. -/
abbrev Headers := List (String × String)

/-- Embedding of dict(self.headers): one entry per distinct name (the
message object preserves the case of names as received; for a
repeated name the first value wins), in order of first appearance. -/
def dict_of_headers : Headers → Headers
  | [] => []
  | p :: hs => p :: ((dict_of_headers hs).filter fun q => decide (q.1 ≠ p.1))

/-- Python del headers[k]: removes the entry whose name is exactly k
(dict keys are compared case-sensitively). -/
def dict_del (d : Headers) (k : String) : Headers :=
  d.filter fun p => decide (p.1 ≠ k)

/-- Python headers[k] = v on a dict: replace the value in place when
the exact key is present, otherwise append the new entry. -/
def dict_set : Headers → String → String → Headers
  | [], k, v => [(k, v)]
  | p :: d, k, v => if p.1 = k then (k, v) :: d else p :: dict_set d k v

/-- Python headers.get(k) on a dict. -/
def dict_get (d : Headers) (k : String) : Option String :=
  (d.find? fun p => decide (p.1 = k)).map (·.2)

/-- Embedding of the header preparation in handle_request (lines
120-135): copy the request headers into a dict, delete the (exact,
lowercase) hop-by-hop names, then set the four forwarding headers. -/
def prepare_forward_headers (reqHeaders : Headers)
    (client_ip orig_host scheme proxy_id : String) : Headers :=
  let d := dict_of_headers reqHeaders
  let d := hop_by_hop_headers.foldl dict_del d
  let d := dict_set d "X-Forwarded-For" client_ip
  let d := dict_set d "X-Forwarded-Host" orig_host
  let d := dict_set d "X-Forwarded-Proto" scheme
  dict_set d "X-Proxy-ID" proxy_id

/-- Embedding of update_cluster_state (lines 260-290), with
health_check abstracted by the probe oracle (true exactly when the
GET /health probe of that node returns 200 within the timeout; the
diagnostic payload copied into the stats is opaque and not modelled).
The healthy list is rebuilt from scratch from the single probe of
this cycle, zero stats are created for healthy nodes seen for the
first time, and active_nodes is replaced wholesale. -/
def update_cluster_state (probe : String → Bool)
    (backend_nodes : List String) (cs : ClusterState) : ClusterState :=
  let healthy_nodes := backend_nodes.filter probe
  let stats := healthy_nodes.foldl
    (fun m node =>
      if statsContains m node then m
      else m ++ [(node, { connections := 0, requests := 0, errors := 0 })])
    cs.node_stats
  { cs with active_nodes := healthy_nodes, node_stats := stats }

/-! Iterated requests from one source within a single rate window, and
concrete fixtures used by witnesses and counterexamples. -/

/-- State after n requests from the given source through the in-memory
rate limiter. -/
def run_rate_limit_mem (cfg : DDoSConfig) (ip : String) (s : Store) : Nat → Store
  | 0 => s
  | n + 1 => (rate_limit_mem cfg ip (run_rate_limit_mem cfg ip s n)).2

/-- State after n requests from the given source through the Redis
rate limiter, all inside one window (counters do not expire). -/
def run_rate_limit_redis (cfg : DDoSConfig) (ip : String) (now : Nat) (s : Store) :
    Nat → Store
  | 0 => s
  | n + 1 => (rate_limit_redis cfg ip now (run_rate_limit_redis cfg ip now s n)).2

/-- Geo configuration blocking CN, as in the repository test
test_geo_filtering. -/
def cfg_geo_cn : DDoSConfig :=
  { RATE_LIMIT := 100, MAX_CONNECTIONS_PER_IP := 20, BLACKLIST_THRESHOLD := 5,
    BLACKLIST_DURATION := 3600, WHITELISTED_IPS := ["127.0.0.1", "::1"],
    GEO_BLOCKING_ENABLED := true, BLOCKED_COUNTRIES := ["CN"],
    ALLOWED_COUNTRIES := [] }

/-- Small ceiling for rate-limit witnesses. -/
def cfg_rate3 : DDoSConfig :=
  { RATE_LIMIT := 3, MAX_CONNECTIONS_PER_IP := 20, BLACKLIST_THRESHOLD := 5,
    BLACKLIST_DURATION := 3600, WHITELISTED_IPS := ["127.0.0.1", "::1"],
    GEO_BLOCKING_ENABLED := false, BLOCKED_COUNTRIES := [],
    ALLOWED_COUNTRIES := [] }

/-- Ceiling 1 and blacklist threshold 1: the first over-ceiling
request already reaches the threshold. -/
def cfg_burst : DDoSConfig :=
  { RATE_LIMIT := 1, MAX_CONNECTIONS_PER_IP := 20, BLACKLIST_THRESHOLD := 1,
    BLACKLIST_DURATION := 10, WHITELISTED_IPS := [],
    GEO_BLOCKING_ENABLED := false, BLOCKED_COUNTRIES := [],
    ALLOWED_COUNTRIES := [] }

/-- Store of a source that has already used up its window budget under
cfg_burst: the next request is over the ceiling. -/
def store_over : Store :=
  { Store.init with rateCount := 1 }

/-- Cluster with no healthy node. -/
def cs_empty : ClusterState :=
  { active_nodes := [], node_stats := [], node_index := 0 }

/-- Two healthy nodes, no stats needed, cursor away from zero. -/
def cs_two : ClusterState :=
  { active_nodes := ["http://a:1", "http://b:2"], node_stats := [], node_index := 5 }

/-- One healthy node carrying live statistics. -/
def cs_one : ClusterState :=
  { active_nodes := ["http://a:1"],
    node_stats := [("http://a:1", { connections := 2, requests := 5, errors := 0 })],
    node_index := 0 }

/-! Theorems. Helper lemmas come first, then one theorem per claim. -/

/-- The geo_filter decorator can never reject a request in any
configuration: every abort it attempts is raised inside its own try
block and caught by its blanket except-Exception handler. -/
theorem geo_filter_never_rejects (cfg : DDoSConfig) (g d : Bool) (ip : String)
    (pv lp : Bool) (lk : GeoLookup) :
    geo_filter cfg g d ip pv lp lk = .proceed := by
  unfold geo_filter
  repeat' split
  all_goals rfl

/-- C1: with geo blocking enabled, the geoip2 module loaded, the
database present, and a public non-whitelisted address resolving to a
country on the deny-list, the inner rule set decides to reject with
403 (geo_decision), but the request is nevertheless allowed through:
abort(403) raised inside the try block of geo_filter is an
HTTPException, caught by the blanket except-Exception handler, which
logs and lets the wrapped handler run. The repository test
test_geo_filtering expects a 403 response at exactly this input. -/
theorem geo_filter_swallows_rejection :
    geo_decision cfg_geo_cn "CN" = .aborted 403
    ∧ geo_filter cfg_geo_cn true true "1.2.3.4" false false (.resolved "CN")
        = .proceed := by
  decide

/-- C2 counterexample: a configured node that was in the ClusterView
after a passing cycle is removed by the very next cycle in which its
single health probe fails - not after three consecutive failures as
the claim states. -/
theorem node_removed_after_single_failed_probe :
    "http://localhost:5000" ∈
      (update_cluster_state (fun _ => true) ["http://localhost:5000"]
        cs_empty).active_nodes
    ∧ "http://localhost:5000" ∉
      (update_cluster_state (fun _ => false) ["http://localhost:5000"]
        (update_cluster_state (fun _ => true) ["http://localhost:5000"]
          cs_empty)).active_nodes := by
  decide

/-- C2 (amended): the healthy-node list is rebuilt from scratch each
cycle from the single probe of that cycle, so a configured node is
absent from the ClusterView exactly when its latest probe failed - it
is removed after one failed probe, and a previously-unhealthy node is
restored after one passing probe. -/
theorem update_cluster_state_membership (probe : String → Bool)
    (backend_nodes : List String) (cs : ClusterState) (node : String) :
    node ∈ (update_cluster_state probe backend_nodes cs).active_nodes
      ↔ node ∈ backend_nodes ∧ probe node = true := by
  simp [update_cluster_state, List.mem_filter]

/-- One in-memory rate-limit step for a non-whitelisted,
non-blacklisted source: the counter advances by one, the blacklist
state is untouched, and the outcome is 429 exactly when the advanced
counter exceeds the ceiling. -/
theorem rate_limit_mem_step (cfg : DDoSConfig) (ip : String) (s : Store)
    (hw : ip ∉ cfg.WHITELISTED_IPS) (hb : s.memBlacklisted = false) :
    (rate_limit_mem cfg ip s).1
      = (if s.memRateCount + 1 > cfg.RATE_LIMIT then .aborted 429 else .proceed)
    ∧ (rate_limit_mem cfg ip s).2.memRateCount = s.memRateCount + 1
    ∧ (rate_limit_mem cfg ip s).2.memBlacklisted = false := by
  simp only [rate_limit_mem, if_neg hw, hb, Bool.false_eq_true, if_false]
  split <;> simp_all

/-- One Redis rate-limit step for a non-whitelisted source whose
address is not in the in-memory blacklist set: the windowed counter
advances by one, the in-memory set is untouched, and the outcome is
429 exactly when the advanced counter exceeds the ceiling. -/
theorem rate_limit_redis_step (cfg : DDoSConfig) (ip : String) (now : Nat) (s : Store)
    (hw : ip ∉ cfg.WHITELISTED_IPS) (hb : s.memBlacklisted = false) :
    (rate_limit_redis cfg ip now s).1
      = (if s.rateCount + 1 > cfg.RATE_LIMIT then .aborted 429 else .proceed)
    ∧ (rate_limit_redis cfg ip now s).2.rateCount = s.rateCount + 1
    ∧ (rate_limit_redis cfg ip now s).2.memBlacklisted = false := by
  simp only [rate_limit_redis, if_neg hw, hb, Bool.false_eq_true, if_false]
  split
  · split <;> simp_all
  · simp_all

/-- After n in-memory requests from a fresh window state the counter
is n and the source is still not blacklisted. -/
theorem run_rate_limit_mem_state (cfg : DDoSConfig) (ip : String)
    (hw : ip ∉ cfg.WHITELISTED_IPS) (n : Nat) :
    (run_rate_limit_mem cfg ip Store.init n).memRateCount = n
    ∧ (run_rate_limit_mem cfg ip Store.init n).memBlacklisted = false := by
  induction n with
  | zero => simp [run_rate_limit_mem, Store.init]
  | succ n ih =>
    obtain ⟨h1, h2⟩ := ih
    have hstep := rate_limit_mem_step cfg ip (run_rate_limit_mem cfg ip Store.init n) hw h2
    exact ⟨by rw [run_rate_limit_mem, hstep.2.1, h1], by rw [run_rate_limit_mem]; exact hstep.2.2⟩

/-- After n Redis requests from a fresh window state the counter is n
and the in-memory blacklist set still lacks the source. -/
theorem run_rate_limit_redis_state (cfg : DDoSConfig) (ip : String) (now : Nat)
    (hw : ip ∉ cfg.WHITELISTED_IPS) (n : Nat) :
    (run_rate_limit_redis cfg ip now Store.init n).rateCount = n
    ∧ (run_rate_limit_redis cfg ip now Store.init n).memBlacklisted = false := by
  induction n with
  | zero => simp [run_rate_limit_redis, Store.init]
  | succ n ih =>
    obtain ⟨h1, h2⟩ := ih
    have hstep := rate_limit_redis_step cfg ip now
      (run_rate_limit_redis cfg ip now Store.init n) hw h2
    exact ⟨by rw [run_rate_limit_redis, hstep.2.1, h1],
           by rw [run_rate_limit_redis]; exact hstep.2.2⟩

/-- C3: within one rate window, for a source not in the whitelist and
starting from a fresh state, the request arriving with k prior
requests already counted is accepted exactly when its own count k+1
is at most the ceiling, and rejected with 429 otherwise - in both the
in-memory and the Redis implementation. In particular the ceiling-th
request (k+1 = ceiling) is still accepted and every later one in the
window is rejected. -/
theorem rate_limit_ceiling_behaviour (cfg : DDoSConfig) (ip : String) (now k : Nat)
    (hw : ip ∉ cfg.WHITELISTED_IPS) :
    (rate_limit_mem cfg ip (run_rate_limit_mem cfg ip Store.init k)).1
      = (if k + 1 ≤ cfg.RATE_LIMIT then Admission.proceed else Admission.aborted 429)
    ∧ (rate_limit_redis cfg ip now (run_rate_limit_redis cfg ip now Store.init k)).1
      = (if k + 1 ≤ cfg.RATE_LIMIT then Admission.proceed else Admission.aborted 429) := by
  obtain ⟨hm1, hm2⟩ := run_rate_limit_mem_state cfg ip hw k
  obtain ⟨hr1, hr2⟩ := run_rate_limit_redis_state cfg ip now hw k
  have hms := rate_limit_mem_step cfg ip (run_rate_limit_mem cfg ip Store.init k) hw hm2
  have hrs := rate_limit_redis_step cfg ip now
    (run_rate_limit_redis cfg ip now Store.init k) hw hr2
  rw [hms.1, hrs.1, hm1, hr1]
  constructor <;> (by_cases h : k + 1 ≤ cfg.RATE_LIMIT
                   · simp [h, Nat.not_lt.mpr h]
                   · simp [h, Nat.lt_of_not_le h])

/-- C3 witness: with ceiling 3 and source 9.9.9.9 (not whitelisted),
the third request of the window is accepted and the fourth is
rejected with 429, in both implementations. -/
theorem rate_limit_ceiling_behaviour_witness :
    ("9.9.9.9" ∉ cfg_rate3.WHITELISTED_IPS)
    ∧ (rate_limit_mem cfg_rate3 "9.9.9.9"
        (run_rate_limit_mem cfg_rate3 "9.9.9.9" Store.init 2)).1 = .proceed
    ∧ (rate_limit_mem cfg_rate3 "9.9.9.9"
        (run_rate_limit_mem cfg_rate3 "9.9.9.9" Store.init 3)).1 = .aborted 429
    ∧ (rate_limit_redis cfg_rate3 "9.9.9.9" 0
        (run_rate_limit_redis cfg_rate3 "9.9.9.9" 0 Store.init 3)).1 = .aborted 429 := by
  have h2 := rate_limit_ceiling_behaviour cfg_rate3 "9.9.9.9" 0 2 (by decide)
  have h3 := rate_limit_ceiling_behaviour cfg_rate3 "9.9.9.9" 0 3 (by decide)
  refine ⟨by decide, ?_, ?_, ?_⟩
  · rw [h2.1]; decide
  · rw [h3.1]; decide
  · rw [h3.2]; decide

/-- C4 counterexample: under the in-memory fallback with ceiling 1
and blacklist threshold 1, requests 2 and 3 of the window are both
rate-exceeded rejections, so by the claim the source has reached the
threshold and its next request must be rejected with 403; instead
the fourth request is again rejected with 429, the violation counter
was never touched, and no blacklist state of any kind was set. -/
theorem mem_fallback_never_blacklists :
    (rate_limit_mem cfg_burst "5.5.5.5"
        (run_rate_limit_mem cfg_burst "5.5.5.5" Store.init 2)).1 = .aborted 429
    ∧ (rate_limit_mem cfg_burst "5.5.5.5"
        (run_rate_limit_mem cfg_burst "5.5.5.5" Store.init 3)).1 = .aborted 429
    ∧ (run_rate_limit_mem cfg_burst "5.5.5.5" Store.init 3).violations = 0
    ∧ (run_rate_limit_mem cfg_burst "5.5.5.5" Store.init 3).memBlacklisted = false
    ∧ (run_rate_limit_mem cfg_burst "5.5.5.5" Store.init 3).blacklistUntil = none := by
  decide

/-- C4 (amended): in the Redis implementation, a rate-exceeded
request from a non-whitelisted source (not yet in the in-memory
blacklist set) is rejected with 429 and increments the violation
counter; when the incremented counter reaches the blacklist threshold
the blacklist flag is set with the configured duration. While the
flag is unexpired the global protection hook rejects every request
from the source with 403, whatever its traffic, and once the duration
has elapsed the flag no longer reports the source as blacklisted.
The in-memory fallback has no violation or blacklist tracking in its
rate limiter (see the counterexample). -/
theorem redis_violations_and_blacklist_enforcement (cfg : DDoSConfig) (ip : String)
    (now : Nat) (s : Store)
    (hw : ip ∉ cfg.WHITELISTED_IPS) (hb : s.memBlacklisted = false)
    (hover : s.rateCount + 1 > cfg.RATE_LIMIT) :
    (rate_limit_redis cfg ip now s).1 = .aborted 429
    ∧ (rate_limit_redis cfg ip now s).2.violations = s.violations + 1
    ∧ (s.violations + 1 ≥ cfg.BLACKLIST_THRESHOLD →
        (rate_limit_redis cfg ip now s).2.blacklistUntil
          = some (now + cfg.BLACKLIST_DURATION))
    ∧ (∀ (t now2 : Nat) (s2 : Store) (parseImported : Bool) (ua : String),
        s2.blacklistUntil = some t → now2 < t →
        global_protection cfg ip true parseImported ua now2 s2 = .aborted 403)
    ∧ (∀ (t now2 : Nat) (s2 : Store),
        s2.blacklistUntil = some t → t ≤ now2 → s2.memBlacklisted = false →
        is_blacklisted true now2 s2 = false) := by
  refine ⟨?_, ?_, ?_, ?_, ?_⟩
  · simp only [rate_limit_redis, if_neg hw, hb, Bool.false_eq_true, if_false, if_pos hover]
    split <;> rfl
  · simp only [rate_limit_redis, if_neg hw, hb, Bool.false_eq_true, if_false, if_pos hover]
    split <;> rfl
  · intro hth
    simp only [rate_limit_redis, if_neg hw, hb, Bool.false_eq_true, if_false,
      if_pos hover, if_pos hth]
  · intro t now2 s2 parseImported ua hbl hlt
    have hblk : is_blacklisted true now2 s2 = true := by
      simp [is_blacklisted, hbl, hlt]
    simp [global_protection, if_neg hw, hblk]
  · intro t now2 s2 hbl hle hmem
    simp [is_blacklisted, hbl, hmem, Nat.not_lt.mpr hle]

/-- C4 witness: ceiling 1, threshold 1, duration 10 and a source that
already counted one request: its next request at time 100 is rejected
429, the violation counter becomes 1 and the blacklist flag is set to
expire at 110; at time 105 the global protection hook rejects it with
403 regardless of the User-Agent, and at time 110 the flag has
expired. -/
theorem redis_violations_and_blacklist_enforcement_witness :
    ("7.7.7.7" ∉ cfg_burst.WHITELISTED_IPS)
    ∧ store_over.memBlacklisted = false
    ∧ store_over.rateCount + 1 > cfg_burst.RATE_LIMIT
    ∧ (rate_limit_redis cfg_burst "7.7.7.7" 100 store_over).1 = .aborted 429
    ∧ (rate_limit_redis cfg_burst "7.7.7.7" 100 store_over).2.violations = 1
    ∧ (rate_limit_redis cfg_burst "7.7.7.7" 100 store_over).2.blacklistUntil = some 110
    ∧ global_protection cfg_burst "7.7.7.7" true true "Mozilla" 105
        ((rate_limit_redis cfg_burst "7.7.7.7" 100 store_over).2) = .aborted 403
    ∧ is_blacklisted true 110 ((rate_limit_redis cfg_burst "7.7.7.7" 100 store_over).2)
        = false := by
  have h := redis_violations_and_blacklist_enforcement cfg_burst "7.7.7.7" 100 store_over
    (by decide) (by decide) (by decide)
  obtain ⟨h1, h2, h3, h4, h5⟩ := h
  have hbl : (rate_limit_redis cfg_burst "7.7.7.7" 100 store_over).2.blacklistUntil
      = some 110 := by
    have := h3 (by decide)
    simpa using this
  refine ⟨by decide, by decide, by decide, h1, by rw [h2]; decide, hbl, ?_, ?_⟩
  · exact h4 110 105 _ true "Mozilla" hbl (by decide)
  · exact h5 110 110 _ hbl (by decide) (by decide)

/-- C5: a whitelisted source is never rejected and its protection
state is never mutated by any admission operation: both rate-limiter
implementations, both connection-limiter implementations, the WSGI
Slowloris middleware, geo filtering and the global protection hook
all return it unchanged with an accepting outcome, so in particular
no code path can ever blacklist it. -/
theorem whitelisted_source_never_rejected (cfg : DDoSConfig) (ip : String)
    (hw : ip ∈ cfg.WHITELISTED_IPS) :
    (∀ now s, rate_limit_redis cfg ip now s = (.proceed, s))
    ∧ (∀ s, rate_limit_mem cfg ip s = (.proceed, s))
    ∧ (∀ slow now s, limit_connections_redis cfg ip slow now s = (.proceed, s))
    ∧ (∀ slow s, limit_connections_mem cfg ip slow s = (.proceed, s))
    ∧ (∀ ra now s, slowloris_middleware cfg ip ra now s = (.proceed, s))
    ∧ (∀ g d pv lp lk, geo_filter cfg g d ip pv lp lk = .proceed)
    ∧ (∀ ra pi ua now s, global_protection cfg ip ra pi ua now s = .proceed) := by
  refine ⟨?_, ?_, ?_, ?_, ?_, ?_, ?_⟩ <;> intros <;>
    simp [rate_limit_redis, rate_limit_mem, limit_connections_redis,
      limit_connections_mem, slowloris_middleware, global_protection,
      geo_filter_never_rejects, hw]

/-- C5 witness: the localhost address of the default whitelist passes
the in-memory rate limiter untouched even from an exhausted state. -/
theorem whitelisted_source_never_rejected_witness :
    ("127.0.0.1" ∈ cfg_rate3.WHITELISTED_IPS)
    ∧ rate_limit_mem cfg_rate3 "127.0.0.1" { Store.init with memRateCount := 1000 }
        = (.proceed, { Store.init with memRateCount := 1000 }) := by
  exact ⟨by decide,
    (whitelisted_source_never_rejected cfg_rate3 "127.0.0.1" (by decide)).2.1
      { Store.init with memRateCount := 1000 }⟩

/-- C6: when the healthy-node list is empty, node selection returns
no node (before any indexing into the list) for every request, and
the router answers with 503 instead of forwarding, leaving the
cluster state unchanged. -/
theorem empty_cluster_view_503 (algorithm ip : String) (sticky : Option String)
    (fwd : String → Bool) (cs : ClusterState) (h : cs.active_nodes = []) :
    select_node algorithm ip sticky cs = (none, cs)
    ∧ handle_request algorithm ip sticky fwd cs = (.error 503, cs) := by
  have hsel : select_node algorithm ip sticky cs = (none, cs) := by
    simp [select_node, h]
  exact ⟨hsel, by simp [handle_request, hsel]⟩

/-- C6 witness: the empty cluster under round-robin yields no node
and a 503 answer. -/
theorem empty_cluster_view_503_witness :
    cs_empty.active_nodes = []
    ∧ handle_request "round_robin" "9.9.9.9" none (fun _ => true) cs_empty
        = (.error 503, cs_empty) := by
  exact ⟨rfl,
    (empty_cluster_view_503 "round_robin" "9.9.9.9" none (fun _ => true) cs_empty rfl).2⟩

/-- Membership after deleting one key: survivors come from the
original dict and carry a different name. -/
theorem mem_dict_del {d : Headers} {k : String} {p : String × String}
    (hp : p ∈ dict_del d k) : p ∈ d ∧ p.1 ≠ k := by
  have := List.mem_filter.mp hp
  exact ⟨this.1, by simpa using this.2⟩

/-- Membership after deleting a list of keys in sequence. -/
theorem mem_foldl_dict_del {ks : List String} {d : Headers} {p : String × String}
    (hp : p ∈ ks.foldl dict_del d) : p ∈ d ∧ p.1 ∉ ks := by
  induction ks generalizing d with
  | nil => simpa using hp
  | cons k ks ih =>
    have h1 := ih (d := dict_del d k) (by simpa [List.foldl_cons] using hp)
    have h2 := mem_dict_del h1.1
    exact ⟨h2.1, by simp [h2.2, h1.2]⟩

/-- Membership after a dict assignment: either the assigned entry or
an original one. -/
theorem mem_dict_set {d : Headers} {k v : String} {p : String × String}
    (hp : p ∈ dict_set d k v) : p = (k, v) ∨ p ∈ d := by
  induction d with
  | nil => simpa [dict_set] using hp
  | cons q d ih =>
    by_cases h : q.1 = k
    · rw [dict_set, if_pos h] at hp
      rcases List.mem_cons.mp hp with h1 | h1
      · exact Or.inl h1
      · exact Or.inr (List.mem_cons_of_mem _ h1)
    · rw [dict_set, if_neg h] at hp
      rcases List.mem_cons.mp hp with h1 | h1
      · exact Or.inr (by simp [h1])
      · rcases ih h1 with h2 | h2
        · exact Or.inl h2
        · exact Or.inr (List.mem_cons_of_mem _ h2)

/-- Reading back the key just assigned. -/
theorem dict_get_set_self (d : Headers) (k v : String) :
    dict_get (dict_set d k v) k = some v := by
  induction d with
  | nil => simp [dict_set, dict_get]
  | cons q d ih =>
    by_cases h : q.1 = k
    · simp [dict_set, h, dict_get]
    · simpa [dict_set, h, dict_get, List.find?_cons, h] using ih

/-- An assignment to one key leaves reads of any other key unchanged. -/
theorem dict_get_set_other {k k2 : String} (hne : k2 ≠ k) (d : Headers) (v : String) :
    dict_get (dict_set d k v) k2 = dict_get d k2 := by
  induction d with
  | nil => simp [dict_set, dict_get, Ne.symm hne]
  | cons q d ih =>
    by_cases h : q.1 = k
    · simp [dict_set, h, dict_get, List.find?_cons, hne, Ne.symm hne]
    · by_cases h2 : q.1 = k2
      · simp [dict_set, h, dict_get, List.find?_cons, h2, hne]
      · simpa [dict_set, h, dict_get, List.find?_cons, h2] using ih

/-- C7 counterexample: a client sending the hop-by-hop header
connection with a capital letter, as browsers do, sees it forwarded:
the deletion loop only removes the exact lowercase names from the
header dict, whose keys preserve the case the client sent. This
refutes the claim that hop-by-hop headers are absent from the copied
headers regardless of the letter case in which they were sent. -/
theorem cased_hop_header_survives :
    ("Connection", "keep-alive") ∈
      prepare_forward_headers [("Connection", "keep-alive")]
        "1.2.3.4" "example.com" "http" "ab12"
    ∧ "connection" ∈ hop_by_hop_headers
    ∧ "Connection" ≠ "connection" := by
  decide

/-- C7 (amended): the headers forwarded to the backend contain no
entry whose name exactly equals one of the eight lowercase hop-by-hop
names (headers sent in any other letter case are not removed), and
they carry the four forwarding headers with the original client
address, the original host, the original scheme and the proxy
identifier. -/
theorem forward_headers_properties (reqHeaders : Headers)
    (client_ip orig_host scheme proxy_id : String) :
    (∀ p ∈ prepare_forward_headers reqHeaders client_ip orig_host scheme proxy_id,
        p.1 ∉ hop_by_hop_headers)
    ∧ dict_get (prepare_forward_headers reqHeaders client_ip orig_host scheme proxy_id)
        "X-Forwarded-For" = some client_ip
    ∧ dict_get (prepare_forward_headers reqHeaders client_ip orig_host scheme proxy_id)
        "X-Forwarded-Host" = some orig_host
    ∧ dict_get (prepare_forward_headers reqHeaders client_ip orig_host scheme proxy_id)
        "X-Forwarded-Proto" = some scheme
    ∧ dict_get (prepare_forward_headers reqHeaders client_ip orig_host scheme proxy_id)
        "X-Proxy-ID" = some proxy_id := by
  unfold prepare_forward_headers
  refine ⟨?_, ?_, ?_, ?_, ?_⟩
  · intro p hp
    rcases mem_dict_set hp with h | h
    · subst h; show "X-Proxy-ID" ∉ hop_by_hop_headers; decide
    rcases mem_dict_set h with h | h
    · subst h; show "X-Forwarded-Proto" ∉ hop_by_hop_headers; decide
    rcases mem_dict_set h with h | h
    · subst h; show "X-Forwarded-Host" ∉ hop_by_hop_headers; decide
    rcases mem_dict_set h with h | h
    · subst h; show "X-Forwarded-For" ∉ hop_by_hop_headers; decide
    exact (mem_foldl_dict_del h).2
  · rw [dict_get_set_other (by decide), dict_get_set_other (by decide),
      dict_get_set_other (by decide), dict_get_set_self]
  · rw [dict_get_set_other (by decide), dict_get_set_other (by decide),
      dict_get_set_self]
  · rw [dict_get_set_other (by decide), dict_get_set_self]
  · rw [dict_get_set_self]

/-- Closed form of select_node for the ip_hash algorithm without a
sticky override. -/
theorem select_node_ip_hash (ip : String) (cs : ClusterState) :
    select_node "ip_hash" ip none cs
      = if cs.active_nodes.isEmpty then (none, cs)
        else (cs.active_nodes.get? (char_sum ip % cs.active_nodes.length), cs) := by
  simp [select_node]

/-- C8: with the ip_hash algorithm and no sticky override, selection
over a non-empty healthy-node list returns exactly the node at index
(sum of the character codes of the source address) mod (length of the
list), leaves the cluster state (including the round-robin cursor)
unchanged, and therefore a second invocation with the same inputs
returns the identical result. -/
theorem ip_hash_selection_deterministic (ip : String) (cs : ClusterState)
    (h : cs.active_nodes ≠ []) :
    ∃ hlt : char_sum ip % cs.active_nodes.length < cs.active_nodes.length,
      select_node "ip_hash" ip none cs
        = (some (cs.active_nodes.get ⟨char_sum ip % cs.active_nodes.length, hlt⟩), cs)
      ∧ select_node "ip_hash" ip none (select_node "ip_hash" ip none cs).2
          = select_node "ip_hash" ip none cs := by
  have hlen : 0 < cs.active_nodes.length := List.length_pos.mpr h
  have hlt := Nat.mod_lt (char_sum ip) hlen
  have hne : cs.active_nodes.isEmpty = false := by
    simpa [List.isEmpty_iff] using h
  have hmain : select_node "ip_hash" ip none cs
      = (some (cs.active_nodes.get ⟨char_sum ip % cs.active_nodes.length, hlt⟩), cs) := by
    rw [select_node_ip_hash, if_neg (by simp [hne]), List.get?_eq_get hlt]
  refine ⟨hlt, hmain, ?_⟩
  rw [hmain]
  exact hmain

/-- C8 witness: against the fixed two-node list, the address 9.9.9.9
has character sum 366, index 366 mod 2 = 0, so selection returns the
first node and does not modify the cluster state; repeating it yields
the same pair. -/
theorem ip_hash_selection_deterministic_witness :
    cs_two.active_nodes ≠ []
    ∧ select_node "ip_hash" "9.9.9.9" none cs_two = (some "http://a:1", cs_two) := by
  obtain ⟨hlt, h1, h2⟩ := ip_hash_selection_deterministic "9.9.9.9" cs_two (by decide)
  refine ⟨by decide, ?_⟩
  rw [h1]
  rfl

/-- C9: under the global protection hook, for a non-whitelisted,
non-blacklisted source: with the user_agents module importable, a
request with a missing or empty User-Agent header is rejected with
400; with the module not importable, request validation always
returns true and no 400 rejection can occur for any request. -/
theorem user_agent_validation_outcomes (cfg : DDoSConfig) (ip : String)
    (ra : Bool) (now : Nat) (s : Store)
    (hw : ip ∉ cfg.WHITELISTED_IPS) (hb : is_blacklisted ra now s = false) :
    global_protection cfg ip ra true "" now s = .aborted 400
    ∧ (∀ ua, validate_request false ua = true)
    ∧ (∀ (ua : String) (now2 : Nat) (s2 : Store),
        global_protection cfg ip ra false ua now2 s2 ≠ .aborted 400) := by
  refine ⟨?_, ?_, ?_⟩
  · simp [global_protection, if_neg hw, hb, validate_request]
  · intro ua; simp [validate_request]
  · intro ua now2 s2
    unfold global_protection
    rw [if_neg hw]
    by_cases h2 : is_blacklisted ra now2 s2 = true
    · simp [h2]
    · simp [h2, validate_request]

/-- C9 witness: from a fresh state the source 8.8.8.8 with an empty
User-Agent is rejected 400 when the parser module is importable, and
cannot be rejected 400 when it is not. -/
theorem user_agent_validation_outcomes_witness :
    ("8.8.8.8" ∉ cfg_rate3.WHITELISTED_IPS)
    ∧ is_blacklisted true 0 Store.init = false
    ∧ global_protection cfg_rate3 "8.8.8.8" true true "" 0 Store.init = .aborted 400
    ∧ global_protection cfg_rate3 "8.8.8.8" true false "" 0 Store.init ≠ .aborted 400 := by
  have h := user_agent_validation_outcomes cfg_rate3 "8.8.8.8" true 0 Store.init
    (by decide) (by decide)
  exact ⟨by decide, by decide, h.1, h.2.2 "" 0 Store.init⟩

/-- Node selection never changes the statistics map: only the
round-robin cursor may advance. -/
theorem select_node_node_stats (algorithm ip : String) (sticky : Option String)
    (cs : ClusterState) :
    (select_node algorithm ip sticky cs).2.node_stats = cs.node_stats := by
  unfold select_node
  repeat' split
  all_goals rfl

/-- A present key is reported present. -/
theorem statsContains_of_statsGet {m : StatsMap} {k : String} {st : NodeStats}
    (h : statsGet m k = some st) : statsContains m k = true := by
  induction m with
  | nil => simp [statsGet] at h
  | cons q m ih =>
    by_cases hk : q.1 = k
    · simp [statsContains, hk]
    · simp only [statsContains, List.any_cons, hk, Bool.or_eq_true]
      refine Or.inr ?_
      exact ih (by simpa [statsGet, List.find?_cons, hk] using h)

/-- Mapping the per-entry update over the list transforms exactly the
entry read back by lookup. -/
theorem statsGet_map_update {m : StatsMap} {k : String} {st : NodeStats}
    (f : NodeStats → NodeStats) (h : statsGet m k = some st) :
    statsGet (m.map fun p => if p.1 = k then (p.1, f p.2) else p) k = some (f st) := by
  induction m with
  | nil => simp [statsGet] at h
  | cons q m ih =>
    by_cases hk : q.1 = k
    · have h2 : q.2 = st := by simpa [statsGet, List.find?_cons, hk] using h
      simp [statsGet, List.find?_cons, hk, h2]
    · have h2 := ih (by simpa [statsGet, List.find?_cons, hk] using h)
      simpa [statsGet, List.find?_cons, hk] using h2

/-- Updating a present key transforms exactly its entry as read back
by lookup. -/
theorem statsGet_statsUpdate_self {m : StatsMap} {k : String} {st : NodeStats}
    (h : statsGet m k = some st) (f : NodeStats → NodeStats) :
    statsGet (statsUpdate m k f) k = some (f st) := by
  rw [statsUpdate, if_pos (statsContains_of_statsGet h)]
  exact statsGet_map_update f h

/-- C10: when the chosen backend has a statistics entry and the
forwarding attempt raises after dispatch, the handler answers 502 and
the backend statistics show connections one higher than before the
dispatch (the dispatch increment is never compensated on the error
path), errors exactly one higher, and requests unchanged. -/
theorem forwarding_failure_stats_effect (algorithm ip : String)
    (sticky : Option String) (fwd : String → Bool) (cs : ClusterState)
    (backend : String) (st0 : NodeStats)
    (hsel : (select_node algorithm ip sticky cs).1 = some backend)
    (hst : statsGet cs.node_stats backend = some st0)
    (hf : fwd backend = false) :
    (handle_request algorithm ip sticky fwd cs).1 = .error 502
    ∧ statsGet (handle_request algorithm ip sticky fwd cs).2.node_stats backend
        = some { connections := st0.connections + 1, requests := st0.requests,
                 errors := st0.errors + 1 } := by
  have hst2 : statsGet (select_node algorithm ip sticky cs).2.node_stats backend
      = some st0 := by rw [select_node_node_stats]; exact hst
  have h1 := statsGet_statsUpdate_self hst2
    (fun st => { st with connections := st.connections + 1 })
  have h2 := statsGet_statsUpdate_self h1
    (fun st => { st with errors := st.errors + 1 })
  simp only [handle_request, hsel, hf, Bool.false_eq_true, if_false]
  refine ⟨trivial, ?_⟩
  exact h2

/-- C10 witness: one backend with 2 live connections, 5 requests and
0 errors; forwarding fails, the caller gets 502 and the stats move to
3 connections, 5 requests, 1 error. -/
theorem forwarding_failure_stats_effect_witness :
    ((select_node "round_robin" "9.9.9.9" none cs_one).1 = some "http://a:1")
    ∧ statsGet cs_one.node_stats "http://a:1"
        = some { connections := 2, requests := 5, errors := 0 }
    ∧ (handle_request "round_robin" "9.9.9.9" none (fun _ => false) cs_one).1
        = .error 502
    ∧ statsGet (handle_request "round_robin" "9.9.9.9" none
          (fun _ => false) cs_one).2.node_stats "http://a:1"
        = some { connections := 3, requests := 5, errors := 1 } := by
  have h := forwarding_failure_stats_effect "round_robin" "9.9.9.9" none
    (fun _ => false) cs_one "http://a:1"
    { connections := 2, requests := 5, errors := 0 }
    (by decide) (by decide) rfl
  exact ⟨by decide, by decide, h.1, h.2⟩

end Gpo
